import Mathlib

/-!
# Verification of the gosane SANE type/constant vocabulary

A shallow embedding of the `gosane` Go package: the SANE primitive type
aliases, the status/capability/constraint/value-type/value-unit constant
tables, the status error-message lookup, and the `Init` stub.

Go named types over an underlying integer type are embedded as Lean
structures wrapping the corresponding Lean integer type (`uint` as `Nat`,
`int32` as `Int`, with the caveat that no operation in the package can
overflow 32 bits).  Go type *aliases* (`type SBool = SWord`) are embedded
as Lean `abbrev`s, so the alias really is the same type.
-/

namespace Gosane

/-- Go `type SByte uint8`. -/
def SByte := Nat

/-- Go `type SWord int32`: a 32-bit signed word (documented as ordered
most-significant to least-significant, i.e. big endian).  Embedded as an
`Int` payload; every constant in the package is far inside the 32-bit
range and no operation in the package can overflow it. -/
structure SWord where
  val : Int
  deriving DecidableEq, Repr

/-- Go `type SString []byte`. -/
def SString := List Nat

/-- Go `type SStringConst string`. -/
def SStringConst := String

/-- Go alias `type SBool = SWord`: the same type, not a distinct named type. -/
abbrev SBool := SWord

/-- Go `SFALSE SBool = iota` (first constant, value 0). -/
def SFALSE : SBool := ⟨0⟩

/-- Go `STRUE` (second `iota` constant, value 1). -/
def STRUE : SBool := ⟨1⟩

/-- Go alias `type SInt = SWord`. -/
abbrev SInt := SWord

/-- Go `type SChar byte`. -/
def SChar := Nat

/-- Go `MaxUsernameLen SInt = 128`. -/
def MaxUsernameLen : SInt := ⟨128⟩

/-- Go `MaxPasswordLen SInt = 128`. -/
def MaxPasswordLen : SInt := ⟨128⟩

/-- Go `type SStatus uint`. -/
structure SStatus where
  val : Nat
  deriving DecidableEq, Repr

/-- Go `Good SStatus = iota` (value 0). -/
def Good : SStatus := ⟨0⟩

/-- Go `Unsupported` (value 1). -/
def Unsupported : SStatus := ⟨1⟩

/-- Go `Cancelled` (value 2). -/
def Cancelled : SStatus := ⟨2⟩

/-- Go `DeviceBusy` (value 3). -/
def DeviceBusy : SStatus := ⟨3⟩

/-- Go `Inval` (value 4). -/
def Inval : SStatus := ⟨4⟩

/-- Go `Eof` (value 5). -/
def Eof : SStatus := ⟨5⟩

/-- Go `Jammed` (value 6). -/
def Jammed : SStatus := ⟨6⟩

/-- Go `NoDocs` (value 7). -/
def NoDocs : SStatus := ⟨7⟩

/-- Go `CoverOpen` (value 8). -/
def CoverOpen : SStatus := ⟨8⟩

/-- Go `IoError` (value 9). -/
def IoError : SStatus := ⟨9⟩

/-- Go `NoMem` (value 10). -/
def NoMem : SStatus := ⟨10⟩

/-- Go `AccessDenied` (value 11). -/
def AccessDenied : SStatus := ⟨11⟩

/-- Go `func (e SStatus) Error() string`: a `switch e` over the eleven
non-`Good` status constants assigning a message to `errString` (declared
with `var`, so zero-valued `""`); no `case` for `Good` and no `default`,
hence every unmatched value returns the empty string. -/
def SStatus.Error (e : SStatus) : String :=
  if e = Unsupported then "Operation is not supported"
  else if e = Cancelled then "Operation was cancelled"
  else if e = DeviceBusy then "Device is busy---retry later"
  else if e = Inval then "Data or argument is invalid"
  else if e = Eof then "No more data available (end-of-file)"
  else if e = Jammed then "Document feeder jammed"
  else if e = NoDocs then "Document feeder out of documents"
  else if e = CoverOpen then "Scanner cover is open"
  else if e = IoError then "Error during device I/O"
  else if e = NoMem then "Out of memory"
  else if e = AccessDenied then "Access to resource has been denied"
  else ""

/-- The eleven non-`Good` status constants, in declaration order. -/
def nonGoodStatuses : List SStatus :=
  [Unsupported, Cancelled, DeviceBusy, Inval, Eof, Jammed, NoDocs,
   CoverOpen, IoError, NoMem, AccessDenied]

/-- Go arithmetic right shift `>>` on a signed integer (sign-extending),
which on `Int` is exactly floor division by `2 ^ n`. -/
def goArithShiftRight (x : Int) (n : Nat) : Int := Int.fdiv x (2 ^ n)

/-- Go `type Capabilities SInt` (a distinct named type over `int32`). -/
structure Capabilities where
  val : Int
  deriving DecidableEq, Repr

/-- Go `>>` applied to a `Capabilities` value. -/
def Capabilities.shr (c : Capabilities) (n : Nat) : Capabilities :=
  ⟨goArithShiftRight c.val n⟩

/-- Go `&` (bitwise AND) applied to `Capabilities` values. -/
def Capabilities.and (a b : Capabilities) : Capabilities :=
  ⟨Int.land a.val b.val⟩

/-- Go `SoftSelect Capabilities = 0x01`. -/
def SoftSelect : Capabilities := ⟨0x01⟩

/-- Go `HardSelect Capabilities = SoftSelect >> 1`. -/
def HardSelect : Capabilities := SoftSelect.shr 1

/-- Go `SoftDetect Capabilities = HardSelect >> 1`. -/
def SoftDetect : Capabilities := HardSelect.shr 1

/-- Go `Emulated Capabilities = SoftDetect >> 1`. -/
def Emulated : Capabilities := SoftDetect.shr 1

/-- Go `Automatic Capabilities = Emulated >> 1`. -/
def Automatic : Capabilities := Emulated.shr 1

/-- Go `Inactive Capabilities = Automatic >> 1`. -/
def Inactive : Capabilities := Automatic.shr 1

/-- Go `Advanced Capabilities = Inactive >> 1`. -/
def Advanced : Capabilities := Inactive.shr 1

/-- Go `Hidden Capabilities = Advanced >> 1`. -/
def Hidden : Capabilities := Advanced.shr 1

/-- Go `AlwaysSettable Capabilities = Hidden >> 1`. -/
def AlwaysSettable : Capabilities := Hidden.shr 1

/-- The nine capability flag constants, in declaration order. -/
def capabilityFlags : List Capabilities :=
  [SoftSelect, HardSelect, SoftDetect, Emulated, Automatic, Inactive,
   Advanced, Hidden, AlwaysSettable]

/-- Go `type ConstraintType SInt`. -/
structure ConstraintType where
  val : Int
  deriving DecidableEq, Repr

/-- Go `None ConstraintType = iota` (value 0). -/
def None : ConstraintType := ⟨0⟩

/-- Go `Range` (value 1). -/
def Range : ConstraintType := ⟨1⟩

/-- Go `WordList` (value 2). -/
def WordList : ConstraintType := ⟨2⟩

/-- Go `StringList` (value 3). -/
def StringList : ConstraintType := ⟨3⟩

/-- Go `type SRange struct { Min, Max, Quant SWord }`. -/
structure SRange where
  Min : SWord
  Max : SWord
  Quant : SWord
  deriving DecidableEq, Repr

/-- Go `type ValueType uint`. -/
structure ValueType where
  val : Nat
  deriving DecidableEq, Repr

/-- Go `TypeBool ValueType = iota` (value 0). -/
def TypeBool : ValueType := ⟨0⟩

/-- Go `TypeInt` (value 1). -/
def TypeInt : ValueType := ⟨1⟩

/-- Go `TypeFixed` (value 2). -/
def TypeFixed : ValueType := ⟨2⟩

/-- Go `TypeString` (value 3). -/
def TypeString : ValueType := ⟨3⟩

/-- Go `TypeButton` (value 4). -/
def TypeButton : ValueType := ⟨4⟩

/-- Go `TypeGroup` (value 5). -/
def TypeGroup : ValueType := ⟨5⟩

/-- Go `type ValueUnit uint`. -/
structure ValueUnit where
  val : Nat
  deriving DecidableEq, Repr

/-- Go `UnitNone ValueUnit = iota` (value 0). -/
def UnitNone : ValueUnit := ⟨0⟩

/-- Go `UnitPixel` (value 1). -/
def UnitPixel : ValueUnit := ⟨1⟩

/-- Go `UnitBit` (value 2). -/
def UnitBit : ValueUnit := ⟨2⟩

/-- Go `UnitMm` (value 3). -/
def UnitMm : ValueUnit := ⟨3⟩

/-- Go `UnitDpi` (value 4). -/
def UnitDpi : ValueUnit := ⟨4⟩

/-- Go `UnitPercent` (value 5). -/
def UnitPercent : ValueUnit := ⟨5⟩

/-- Go `UnitMicrosecond` (value 6). -/
def UnitMicrosecond : ValueUnit := ⟨6⟩

/-- Go conversion `uint(s)` for an `SStatus`. -/
def SStatus.toUint (s : SStatus) : Nat := s.val

/-- Go conversion `SStatus(n)` from a `uint`. -/
def SStatus.ofUint (n : Nat) : SStatus := ⟨n⟩

/-- Go conversion `SInt(c)` for a `Capabilities` value. -/
def Capabilities.toSInt (c : Capabilities) : SInt := ⟨c.val⟩

/-- Go conversion `Capabilities(w)` from an `SInt`. -/
def Capabilities.ofSInt (w : SInt) : Capabilities := ⟨w.val⟩

/-- Go conversion `SInt(ct)` for a `ConstraintType`. -/
def ConstraintType.toSInt (ct : ConstraintType) : SInt := ⟨ct.val⟩

/-- Go conversion `ConstraintType(w)` from an `SInt`. -/
def ConstraintType.ofSInt (w : SInt) : ConstraintType := ⟨w.val⟩

/-- Go conversion `uint(vt)` for a `ValueType`. -/
def ValueType.toUint (vt : ValueType) : Nat := vt.val

/-- Go conversion `ValueType(n)` from a `uint`. -/
def ValueType.ofUint (n : Nat) : ValueType := ⟨n⟩

/-- Go conversion `uint(vu)` for a `ValueUnit`. -/
def ValueUnit.toUint (vu : ValueUnit) : Nat := vu.val

/-- Go conversion `ValueUnit(n)` from a `uint`. -/
def ValueUnit.ofUint (n : Nat) : ValueUnit := ⟨n⟩

/-- Go `type AuthorizationCallback func(resource SStringConst, username SChar, password SChar)`. -/
def AuthorizationCallback := SStringConst → SChar → SChar → Unit

/-- Result of a call to `Init`.  The Go function returns the interface
type `error` (embedded as `Option SStatus`: `none` is the nil interface,
`some s` an interface value holding the concrete `SStatus` `s`, the only
error type in the package).  We additionally record the trace of
invocations of the `authorize` callback performed during the call, so
that non-invocation is an observable fact of the embedding. -/
structure InitResult where
  err : Option SStatus
  authorizeCalls : List (SStringConst × SChar × SChar)

/-- Go `func Init(verionCode SInt, authorize AuthorizationCallback) error`:
the body is the single statement `return SStatus(Good)`, so the returned
error interface is non-nil and holds `Good`, and the callback is never
invoked (empty trace). -/
def Init (verionCode : SInt) (authorize : AuthorizationCallback) : InitResult :=
  { err := some Good, authorizeCalls := [] }

/-- C1: the capability flag constants do not overlap: any two flags at
distinct declaration positions have a bitwise AND of zero (with the
right-shift chain of the source, `SoftSelect` is the only flag with any
set bit, so all pairwise ANDs vanish). -/
theorem capability_flags_pairwise_and_zero :
    ∀ i j : Fin capabilityFlags.length, i ≠ j →
      (capabilityFlags.get i).and (capabilityFlags.get j) = ⟨0⟩ := by
  decide

/-- Witness for C1 at the concrete pair `SoftSelect`, `HardSelect`. -/
theorem capability_flags_pairwise_and_zero_witness :
    ((capabilityFlags.get ⟨0, by decide⟩).and (capabilityFlags.get ⟨1, by decide⟩)
      : Capabilities) = ⟨0⟩ :=
  capability_flags_pairwise_and_zero ⟨0, by decide⟩ ⟨1, by decide⟩ (by decide)

/-- C2: each capability flag equals the previous flag shifted right by
one bit, starting from `SoftSelect = 0x01`. -/
theorem capability_flags_shift_chain :
    SoftSelect = ⟨0x01⟩ ∧
    HardSelect = SoftSelect.shr 1 ∧
    SoftDetect = HardSelect.shr 1 ∧
    Emulated = SoftDetect.shr 1 ∧
    Automatic = Emulated.shr 1 ∧
    Inactive = Automatic.shr 1 ∧
    Advanced = Inactive.shr 1 ∧
    Hidden = Advanced.shr 1 ∧
    AlwaysSettable = Hidden.shr 1 :=
  ⟨rfl, rfl, rfl, rfl, rfl, rfl, rfl, rfl, rfl⟩

/-- C3: for every version code and callback, `Init` returns the `Good`
status, the callback is never invoked (empty invocation trace), and the
result is independent of both arguments. -/
theorem Init_returns_good_never_calls_callback
    (v v' : SInt) (cb cb' : AuthorizationCallback) :
    (Init v cb).err = some Good ∧ (Init v cb).authorizeCalls = [] ∧
    Init v cb = Init v' cb' :=
  ⟨rfl, rfl, rfl⟩

/-- C4: each non-`Good` status code maps to its documented non-empty
message, and distinct non-`Good` codes map to distinct messages. -/
theorem error_messages_match_table :
    Unsupported.Error = "Operation is not supported" ∧
    Cancelled.Error = "Operation was cancelled" ∧
    DeviceBusy.Error = "Device is busy---retry later" ∧
    Inval.Error = "Data or argument is invalid" ∧
    Eof.Error = "No more data available (end-of-file)" ∧
    Jammed.Error = "Document feeder jammed" ∧
    NoDocs.Error = "Document feeder out of documents" ∧
    CoverOpen.Error = "Scanner cover is open" ∧
    IoError.Error = "Error during device I/O" ∧
    NoMem.Error = "Out of memory" ∧
    AccessDenied.Error = "Access to resource has been denied" ∧
    (nonGoodStatuses.map SStatus.Error).all (fun m => !(m == "")) = true ∧
    List.Pairwise (fun a b => a ≠ b) (nonGoodStatuses.map SStatus.Error) := by
  decide

/-- C5: the `Good` status yields the empty string, and so does every
status value strictly greater than `AccessDenied` (no fallback message). -/
theorem error_empty_for_good_and_unknown :
    Good.Error = "" ∧
    ∀ s : SStatus, AccessDenied.val < s.val → s.Error = "" := by
  refine ⟨by decide, ?_⟩
  rintro ⟨n⟩ h
  have h11 : 11 < n := by simpa [AccessDenied] using h
  have hne : ∀ m : Nat, m ≤ 11 → ((⟨n⟩ : SStatus) = ⟨m⟩) = False := by
    intro m hm
    apply eq_false
    intro hc
    injection hc with hnm
    omega
  simp only [SStatus.Error, Unsupported, Cancelled, DeviceBusy, Inval, Eof,
    Jammed, NoDocs, CoverOpen, IoError, NoMem, AccessDenied,
    hne 1 (by omega), hne 2 (by omega), hne 3 (by omega), hne 4 (by omega),
    hne 5 (by omega), hne 6 (by omega), hne 7 (by omega), hne 8 (by omega),
    hne 9 (by omega), hne 10 (by omega), hne 11 (by omega), if_false]

/-- Witness for C5 at the concrete out-of-range status value 12. -/
theorem error_empty_for_good_and_unknown_witness :
    AccessDenied.val < (SStatus.mk 12).val ∧ SStatus.Error ⟨12⟩ = "" :=
  ⟨by decide, error_empty_for_good_and_unknown.2 ⟨12⟩ (by decide)⟩

/-- C6: for every input, the error value `Init` returns is non-nil even
though the operation succeeds, and its message is the empty string. -/
theorem Init_error_nonnil_empty_message
    (v : SInt) (cb : AuthorizationCallback) :
    (Init v cb).err ≠ none ∧
    Option.map SStatus.Error (Init v cb).err = some "" :=
  ⟨fun hcontra => Option.noConfusion hcontra,
   (by decide : Option.map SStatus.Error (some Good) = some "")⟩

/-- C7: converting a status code, capability bitmask, or enumerated tag
to its underlying integer representation and back is the identity. -/
theorem underlying_integer_roundtrip
    (s : SStatus) (c : Capabilities) (ct : ConstraintType)
    (vt : ValueType) (vu : ValueUnit) :
    SStatus.ofUint s.toUint = s ∧
    Capabilities.ofSInt c.toSInt = c ∧
    ConstraintType.ofSInt ct.toSInt = ct ∧
    ValueType.ofUint vt.toUint = vt ∧
    ValueUnit.ofUint vu.toUint = vu :=
  ⟨rfl, rfl, rfl, rfl, rfl⟩

/-- C8: the username and password bound constants both equal 128. -/
theorem credential_length_bounds :
    MaxUsernameLen.val = 128 ∧ MaxPasswordLen.val = 128 :=
  ⟨rfl, rfl⟩

/-- C9: every enumerated tag family is assigned consecutive integer
values starting at 0 in declaration order: `SStatus` runs 0 through 11,
`ConstraintType` 0 through 3, `ValueType` 0 through 5, `ValueUnit` 0
through 6. -/
theorem enum_values_consecutive :
    Good.val = 0 ∧ Unsupported.val = 1 ∧ Cancelled.val = 2 ∧
    DeviceBusy.val = 3 ∧ Inval.val = 4 ∧ Eof.val = 5 ∧ Jammed.val = 6 ∧
    NoDocs.val = 7 ∧ CoverOpen.val = 8 ∧ IoError.val = 9 ∧
    NoMem.val = 10 ∧ AccessDenied.val = 11 ∧
    None.val = 0 ∧ Range.val = 1 ∧ WordList.val = 2 ∧ StringList.val = 3 ∧
    TypeBool.val = 0 ∧ TypeInt.val = 1 ∧ TypeFixed.val = 2 ∧
    TypeString.val = 3 ∧ TypeButton.val = 4 ∧ TypeGroup.val = 5 ∧
    UnitNone.val = 0 ∧ UnitPixel.val = 1 ∧ UnitBit.val = 2 ∧
    UnitMm.val = 3 ∧ UnitDpi.val = 4 ∧ UnitPercent.val = 5 ∧
    UnitMicrosecond.val = 6 := by
  decide

/-- C10: `SFALSE = 0`, `STRUE = 1`, `SBool` is the very same type as the
32-bit word type `SWord` (Go type alias), and both boolean constants fit
in a 32-bit signed word. -/
theorem sbool_word_alias_and_values :
    SFALSE.val = 0 ∧ STRUE.val = 1 ∧ SBool = SWord ∧
    (-(2 ^ 31) ≤ SFALSE.val ∧ SFALSE.val < 2 ^ 31) ∧
    (-(2 ^ 31) ≤ STRUE.val ∧ STRUE.val < 2 ^ 31) := by
  refine ⟨rfl, rfl, rfl, by decide, by decide⟩

end Gosane
